import Mathlib

/-!
Verification of the Trinity-RFT launcher (trinity/cli/launcher.py).

The launcher orchestrates two remote workers (an Explorer and a Trainer)
through the lifecycle phases readiness, prepare, sync weight, run, shutdown.
We shallowly embed each launcher function as a Lean function from an
environment (the outcomes delivered by the remote workers and the ray
runtime) to the trace of remote dispatches and waits the launcher performs.
Remote calls in ray return futures; a blocking retrieval either returns a
value or re-raises the remote exception, which we model with an explicit
outcome field per barrier.  Machine timing is modelled in abstract time
units, matching the timeout arguments of the waits in the source.
-/

/-- The two worker roles launched by the orchestrator. -/
inductive Role
  | explorer
  | trainer
deriving DecidableEq

/-- Remote lifecycle operations a worker handle exposes in launcher.py:
the implicit readiness probe, prepare, sync weight, the main run
(explore / train / benchmark) and shutdown. -/
inductive Call
  | ready
  | prepare
  | syncWeight
  | run
  | shutdown
deriving DecidableEq

/-- One observable step of a launcher function:
a remote dispatch of an operation to a role, the successful completion of a
blocking barrier on an operation for all handles, a bounded wait on the
losing run future with its timeout and the time actually elapsed, an
exception propagating out of the function, or a caught-and-logged error. -/
inductive Event
  | dispatch (c : Call) (r : Role)
  | completed (c : Call)
  | waitLoser (timeout : Nat) (elapsed : Nat)
  | raise
  | logError
deriving DecidableEq

/-- Outcome of a blocking retrieval on remote futures: the remote call
returned normally, or it raised and the retrieval re-raises. -/
inductive Res
  | ok
  | err
deriving DecidableEq

/-- The slice of the launcher configuration the embedded functions read:
the two worker names (config.explorer.name, config.trainer.name) and the
synchronizer timeout (config.synchronizer.sync_timeout). -/
structure Config where
  explorerName : String
  trainerName : String
  syncTimeout : Nat
deriving DecidableEq

/-- Environment of one run of the both-mode orchestration: the outcome of
each blocking barrier, the value retrieved from the first-completed run
future (none when that retrieval raises), and the time, measured from race
completion, at which the losing run future becomes ready (none when it
never does). -/
structure BothEnv where
  readyRes : Res
  prepareRes : Res
  syncRes : Res
  runResult : Option String
  loserFinishTime : Option Nat
deriving DecidableEq

/-- Time spent in a ray.wait with a timeout on the losing run future:
ray.wait returns as soon as the future is ready, and no later than the
timeout. -/
def rayWaitElapsed (loserFinishTime : Option Nat) (timeout : Nat) : Nat :=
  match loserFinishTime with
  | some t => min t timeout
  | none => timeout

/-- launcher.py lines 128-147: retrieve the first-completed run result,
branch on the returned token (trainer name checked first), apply the
role-specific bounded wait, then dispatch shutdown to both handles
without awaiting them. -/
def bothRace (cfg : Config) (env : BothEnv) : List Event :=
  match env.runResult with
  | none => [Event.raise]
  | some tok =>
    (if tok = cfg.trainerName then
      [Event.waitLoser 5 (rayWaitElapsed env.loserFinishTime 5)]
    else if tok = cfg.explorerName then
      [Event.waitLoser cfg.syncTimeout (rayWaitElapsed env.loserFinishTime cfg.syncTimeout)]
    else [])
    ++ [Event.dispatch Call.shutdown Role.explorer, Event.dispatch Call.shutdown Role.trainer]

/-- launcher.py lines 114-126: the sync weight barrier, then dispatch both
run operations and race them with ray.wait. -/
def bothFromRun (cfg : Config) (env : BothEnv) : List Event :=
  match env.syncRes with
  | Res.err => [Event.raise]
  | Res.ok =>
    Event.completed Call.syncWeight ::
    Event.dispatch Call.run Role.explorer ::
    Event.dispatch Call.run Role.trainer :: bothRace cfg env

/-- launcher.py lines 108-119: the prepare barrier, then dispatch sync
weight on both handles and block on the next barrier. -/
def bothFromSync (cfg : Config) (env : BothEnv) : List Event :=
  match env.prepareRes with
  | Res.err => [Event.raise]
  | Res.ok =>
    Event.completed Call.prepare ::
    Event.dispatch Call.syncWeight Role.explorer ::
    Event.dispatch Call.syncWeight Role.trainer :: bothFromRun cfg env

/-- launcher.py lines 107-113: the readiness barrier, then dispatch prepare
on both handles and block on the prepare barrier. -/
def bothFromPrepare (cfg : Config) (env : BothEnv) : List Event :=
  match env.readyRes with
  | Res.err => [Event.raise]
  | Res.ok =>
    Event.completed Call.ready ::
    Event.dispatch Call.prepare Role.explorer ::
    Event.dispatch Call.prepare Role.trainer :: bothFromSync cfg env

/-- launcher.py lines 80-147, function both: the full trace of the
both-mode orchestration.  There is no try block in the source, so any
barrier failure appears as a terminal raise event and nothing after it is
dispatched. -/
def both (cfg : Config) (env : BothEnv) : List Event :=
  Event.dispatch Call.ready Role.explorer ::
  Event.dispatch Call.ready Role.trainer :: bothFromPrepare cfg env

/-- The trace both produces up to and including the two run dispatches in
a run where the readiness, prepare and sync weight barriers all succeed. -/
def allOkHead : List Event :=
  [Event.dispatch Call.ready Role.explorer,
   Event.dispatch Call.ready Role.trainer,
   Event.completed Call.ready,
   Event.dispatch Call.prepare Role.explorer,
   Event.dispatch Call.prepare Role.trainer,
   Event.completed Call.prepare,
   Event.dispatch Call.syncWeight Role.explorer,
   Event.dispatch Call.syncWeight Role.trainer,
   Event.completed Call.syncWeight,
   Event.dispatch Call.run Role.explorer,
   Event.dispatch Call.run Role.trainer]

/-- Event a occurs strictly before event b in the trace. -/
def occursBefore (a b : Event) (tr : List Event) : Prop :=
  ∃ l₁ l₂, tr = l₁ ++ a :: l₂ ∧ b ∈ l₂

/-- A buffer entry of a data pipeline configuration: its name and whether
it holds raw data files. -/
structure Buffer where
  name : String
  raw : Bool
deriving DecidableEq

/-- The fields of DataPipelineConfig that validate_data_pipeline reads. -/
structure DataPipelineConfig where
  input_buffers : List Buffer
  output_buffer : Buffer
deriving DecidableEq

/-- launcher.py lines 164-202, function validate_data_pipeline.  Common
checks first: a non-empty input buffer list and an output buffer whose
name is not among the input buffer names; then the type dispatch: a task
pipeline additionally needs every input buffer raw, an experience pipeline
raises NotImplementedError, and any other type fails validation.  An
error value models the raised exception. -/
def validate_data_pipeline (c : DataPipelineConfig) (pipeline_type : String) :
    Except String Bool :=
  if c.input_buffers.length = 0 then Except.ok false
  else if (c.input_buffers.map (fun b => b.name)).contains c.output_buffer.name then
    Except.ok false
  else if pipeline_type = "task" then
    if c.input_buffers.all (fun b => b.raw) then Except.ok true else Except.ok false
  else if pipeline_type = "experience" then
    Except.error "experience_pipeline is not implemented yet."
  else Except.ok false

/-- The fields of the data processor configuration read by run when it
tries to activate the two pipelines.  An empty URL models a falsy
data_processor_url. -/
structure DataProcessorConfig where
  data_processor_url : String
  task_pipeline : Option DataPipelineConfig
  experience_pipeline : Option DataPipelineConfig
deriving DecidableEq

/-- launcher.py lines 211-219: activate the task pipeline when the URL is
set, the pipeline is configured and validation succeeds.  The result is
the list of activated endpoints, or the exception validation raised. -/
def tryTaskActivation (dp : DataProcessorConfig) : Except String (List String) :=
  if dp.data_processor_url = "" then Except.ok []
  else
    match dp.task_pipeline with
    | none => Except.ok []
    | some p =>
      match validate_data_pipeline p "task" with
      | Except.error e => Except.error e
      | Except.ok true => Except.ok [dp.data_processor_url ++ "/task_pipeline"]
      | Except.ok false => Except.ok []

/-- launcher.py lines 220-228: activate the experience pipeline under the
same guard shape, with pipeline type experience. -/
def tryExperienceActivation (dp : DataProcessorConfig) : Except String (List String) :=
  if dp.data_processor_url = "" then Except.ok []
  else
    match dp.experience_pipeline with
    | none => Except.ok []
    | some p =>
      match validate_data_pipeline p "experience" with
      | Except.error e => Except.error e
      | Except.ok true => Except.ok [dp.data_processor_url ++ "/experience_pipeline"]
      | Except.ok false => Except.ok []

/-- launcher.py lines 210-228: the pipeline activation part of run,
executed before ray is initialised and outside any try block.  Returns
the activated endpoints, or the exception that escaped run. -/
def runPipelineActivations (dp : DataProcessorConfig) : Except String (List String) :=
  match tryTaskActivation dp with
  | Except.error e => Except.error e
  | Except.ok a =>
    match tryExperienceActivation dp with
    | Except.error e => Except.error e
    | Except.ok b => Except.ok (a ++ b)

/-- Environment for the single-worker modes: the outcome of each blocking
retrieval performed inside the mode, in program order. -/
structure SingleEnv where
  prepareRes : Res
  syncRes : Res
  runRes : Res
  shutdownRes : Res
deriving DecidableEq

/-- launcher.py lines 40-57, function explore: prepare, sync weight,
explore, shutdown on the explorer handle, each awaited, the whole body
wrapped in a try block whose except clause logs the traceback, so a
failure ends the trace with a logged error and nothing escapes. -/
def explore (env : SingleEnv) : List Event :=
  Event.dispatch Call.prepare Role.explorer ::
  match env.prepareRes with
  | Res.err => [Event.logError]
  | Res.ok =>
    Event.dispatch Call.syncWeight Role.explorer ::
    match env.syncRes with
    | Res.err => [Event.logError]
    | Res.ok =>
      Event.dispatch Call.run Role.explorer ::
      match env.runRes with
      | Res.err => [Event.logError]
      | Res.ok =>
        Event.dispatch Call.shutdown Role.explorer ::
        match env.shutdownRes with
        | Res.err => [Event.logError]
        | Res.ok => []

/-- launcher.py lines 60-77, function train: the same shape as explore on
the trainer handle. -/
def train (env : SingleEnv) : List Event :=
  Event.dispatch Call.prepare Role.trainer ::
  match env.prepareRes with
  | Res.err => [Event.logError]
  | Res.ok =>
    Event.dispatch Call.syncWeight Role.trainer ::
    match env.syncRes with
    | Res.err => [Event.logError]
    | Res.ok =>
      Event.dispatch Call.run Role.trainer ::
      match env.runRes with
      | Res.err => [Event.logError]
      | Res.ok =>
        Event.dispatch Call.shutdown Role.trainer ::
        match env.shutdownRes with
        | Res.err => [Event.logError]
        | Res.ok => []

/-- launcher.py lines 20-37, function bench: prepare, benchmark, shutdown
on the explorer handle, with the same catch-and-log except clause; there
is no sync weight call in this mode. -/
def bench (env : SingleEnv) : List Event :=
  Event.dispatch Call.prepare Role.explorer ::
  match env.prepareRes with
  | Res.err => [Event.logError]
  | Res.ok =>
    Event.dispatch Call.run Role.explorer ::
    match env.runRes with
    | Res.err => [Event.logError]
    | Res.ok =>
      Event.dispatch Call.shutdown Role.explorer ::
      match env.shutdownRes with
      | Res.err => [Event.logError]
      | Res.ok => []

/-- One observable step of the run entrypoint around the mode dispatch:
a step of the selected mode, the timeline export and managed-cluster
teardown of the finally block, and the escape of an exception out of run
after the finally block finished. -/
inductive RunEvent
  | modeEvent (e : Event)
  | timelineExport
  | clusterTeardown
  | escape
deriving DecidableEq

/-- The options of the run entrypoint the embedded trace depends on: the
configured mode string, the dlc flag and monitor.enable_ray_timeline. -/
structure RunOptions where
  mode : String
  dlc : Bool
  enableTimeline : Bool
deriving DecidableEq

/-- launcher.py lines 239-258: the try and finally of run.  The selected
mode runs inside try; the finally block always performs its optional
timeline export and optional cluster teardown; an exception that left the
mode (possible only in both mode, the others catch internally) then
escapes run, uncaught. -/
def runTrace (opts : RunOptions) (cfg : Config) (benv : BothEnv)
    (senv : SingleEnv) : List RunEvent :=
  let tr : List Event :=
    if opts.mode = "explore" then explore senv
    else if opts.mode = "train" then train senv
    else if opts.mode = "both" then both cfg benv
    else if opts.mode = "bench" then bench senv
    else []
  tr.map RunEvent.modeEvent
    ++ (if opts.enableTimeline then [RunEvent.timelineExport] else [])
    ++ (if opts.dlc then [RunEvent.clusterTeardown] else [])
    ++ (if tr.contains Event.raise then [RunEvent.escape] else [])

theorem rayWaitElapsed_le (lf : Option Nat) (t : Nat) : rayWaitElapsed lf t ≤ t := by
  cases lf with
  | none => exact Nat.le_refl t
  | some x => exact Nat.min_le_right x t

theorem both_allOk (cfg : Config) (env : BothEnv)
    (h1 : env.readyRes = Res.ok) (h2 : env.prepareRes = Res.ok)
    (h3 : env.syncRes = Res.ok) :
    both cfg env = allOkHead ++ bothRace cfg env := by
  simp [both, bothFromPrepare, bothFromSync, bothFromRun, allOkHead, h1, h2, h3]

/-- Recognises the bounded grace wait on the losing run future. -/
def isGraceWait : Event → Bool
  | Event.waitLoser _ _ => true
  | _ => false

/-- A configuration with distinct worker names, as the launcher normally
runs with. -/
def cfgD : Config := ⟨"explorer", "trainer", 300⟩

/-- A configuration where both workers share one name. -/
def cfgShared : Config := ⟨"worker", "worker", 300⟩

/-- Environment where the prepare barrier fails. -/
def envPrepErr : BothEnv := ⟨Res.ok, Res.err, Res.ok, some "trainer", none⟩

/-- Environment where retrieving the first-completed run result raises. -/
def envRunErr : BothEnv := ⟨Res.ok, Res.ok, Res.ok, none, none⟩

/-- Environment where the trainer token wins and the loser never
finishes. -/
def envTrainerWins : BothEnv := ⟨Res.ok, Res.ok, Res.ok, some "trainer", none⟩

/-- Environment where the explorer token wins and the loser finishes after
250 time units. -/
def envExplorerWins : BothEnv := ⟨Res.ok, Res.ok, Res.ok, some "explorer", some 250⟩

/-- Environment where the retrieved token matches neither configured
name. -/
def envUnknownTok : BothEnv := ⟨Res.ok, Res.ok, Res.ok, some "other", none⟩

/-- Environment for the shared-name configuration: the token is the shared
name and the loser finishes after 7 time units. -/
def envShared : BothEnv := ⟨Res.ok, Res.ok, Res.ok, some "worker", some 7⟩

theorem bothRace_count_shutdown (cfg : Config) (env : BothEnv) (tok : String)
    (h4 : env.runResult = some tok) (r : Role) :
    (bothRace cfg env).count (Event.dispatch Call.shutdown r) = 1 := by
  unfold bothRace
  rw [h4]
  dsimp only
  split_ifs <;> cases r <;> rfl

/-- Claim C1 as stated is false: with a failing prepare barrier, both
raises and neither handle is dispatched shutdown even once. -/
theorem C1_counterexample :
    both cfgD envPrepErr =
      [Event.dispatch Call.ready Role.explorer,
       Event.dispatch Call.ready Role.trainer,
       Event.completed Call.ready,
       Event.dispatch Call.prepare Role.explorer,
       Event.dispatch Call.prepare Role.trainer,
       Event.raise] ∧
    (both cfgD envPrepErr).count (Event.dispatch Call.shutdown Role.explorer) = 0 ∧
    (both cfgD envPrepErr).count (Event.dispatch Call.shutdown Role.trainer) = 0 :=
  ⟨rfl, rfl, rfl⟩

/-- Claim C1 (corrected): shutdown is dispatched to both handles exactly
once in every both-mode run in which the readiness, prepare and sync
weight barriers succeed and the first run result is retrieved without
raising; when prepare fails, no handle receives sync weight or run, and,
contrary to the original claim, no handle receives shutdown either
because the exception propagates out of both. -/
theorem C1_shutdown_amended (cfg : Config) (env : BothEnv) :
    (env.readyRes = Res.ok → env.prepareRes = Res.ok → env.syncRes = Res.ok →
      ∀ tok, env.runResult = some tok →
        (both cfg env).count (Event.dispatch Call.shutdown Role.explorer) = 1 ∧
        (both cfg env).count (Event.dispatch Call.shutdown Role.trainer) = 1) ∧
    (env.prepareRes = Res.err →
      ∀ r, Event.dispatch Call.syncWeight r ∉ both cfg env ∧
        Event.dispatch Call.run r ∉ both cfg env ∧
        Event.dispatch Call.shutdown r ∉ both cfg env) := by
  constructor
  · intro h1 h2 h3 tok h4
    rw [both_allOk cfg env h1 h2 h3]
    constructor <;>
      · rw [List.count_append, bothRace_count_shutdown cfg env tok h4]
        rfl
  · intro hp r
    cases h1 : env.readyRes with
    | err => simp [both, bothFromPrepare, h1]
    | ok =>
      simp [both, bothFromPrepare, bothFromSync, h1, hp]

/-- Witness for the amended claim C1 at concrete inputs: one environment
where every barrier succeeds and one where prepare fails. -/
theorem C1_shutdown_amended_witness :
    ((both cfgD envTrainerWins).count (Event.dispatch Call.shutdown Role.explorer) = 1 ∧
      (both cfgD envTrainerWins).count (Event.dispatch Call.shutdown Role.trainer) = 1) ∧
    (Event.dispatch Call.syncWeight Role.explorer ∉ both cfgD envPrepErr ∧
      Event.dispatch Call.run Role.explorer ∉ both cfgD envPrepErr ∧
      Event.dispatch Call.shutdown Role.explorer ∉ both cfgD envPrepErr) :=
  ⟨(C1_shutdown_amended cfgD envTrainerWins).1 rfl rfl rfl "trainer" rfl,
   (C1_shutdown_amended cfgD envPrepErr).2 rfl Role.explorer⟩

/-- Claim C2 as stated is false: when retrieving the first run result
raises, both re-raises at once, so the losing worker gets no grace wait
and neither handle is dispatched shutdown. -/
theorem C2_counterexample :
    both cfgD envRunErr = allOkHead ++ [Event.raise] ∧
    (both cfgD envRunErr).countP isGraceWait = 0 ∧
    (both cfgD envRunErr).count (Event.dispatch Call.shutdown Role.explorer) = 0 ∧
    (both cfgD envRunErr).count (Event.dispatch Call.shutdown Role.trainer) = 0 ∧
    Event.raise ∈ both cfgD envRunErr :=
  ⟨rfl, rfl, rfl, rfl, by decide⟩

/-- Claim C2 (corrected): when the first-completed run operation failed,
the retrieval of its result re-raises and the exception propagates out of
both: contrary to the original claim, the other worker receives no grace
wait and shutdown is not dispatched to either handle. -/
theorem C2_run_failure_amended (cfg : Config) (env : BothEnv)
    (h1 : env.readyRes = Res.ok) (h2 : env.prepareRes = Res.ok)
    (h3 : env.syncRes = Res.ok) (h4 : env.runResult = none) :
    both cfg env = allOkHead ++ [Event.raise] ∧
    (both cfg env).countP isGraceWait = 0 ∧
    Event.dispatch Call.shutdown Role.explorer ∉ both cfg env ∧
    Event.dispatch Call.shutdown Role.trainer ∉ both cfg env := by
  have he : both cfg env = allOkHead ++ [Event.raise] := by
    rw [both_allOk cfg env h1 h2 h3]
    simp [bothRace, h4]
  refine ⟨he, ?_, ?_, ?_⟩ <;> rw [he] <;> decide

/-- Witness for the amended claim C2 at a concrete environment whose
first-completed run raised. -/
theorem C2_run_failure_amended_witness :
    both cfgD envRunErr = allOkHead ++ [Event.raise] ∧
    (both cfgD envRunErr).countP isGraceWait = 0 ∧
    Event.dispatch Call.shutdown Role.explorer ∉ both cfgD envRunErr ∧
    Event.dispatch Call.shutdown Role.trainer ∉ both cfgD envRunErr :=
  C2_run_failure_amended cfgD envRunErr rfl rfl rfl rfl

/-- Claim C3 (confirmed): when the retrieved completion token is the
configured trainer name, the losing run future is waited on with the
fixed timeout of 5 time units, the wait lasts at most 5 time units, and
the trace then ends with the shutdown dispatch to both handles, for every
possible finish time of the Explorer, finished or not. -/
theorem C3_trainer_wins_short_window (cfg : Config) (env : BothEnv)
    (h1 : env.readyRes = Res.ok) (h2 : env.prepareRes = Res.ok)
    (h3 : env.syncRes = Res.ok) (h4 : env.runResult = some cfg.trainerName) :
    both cfg env = allOkHead ++
      [Event.waitLoser 5 (rayWaitElapsed env.loserFinishTime 5),
       Event.dispatch Call.shutdown Role.explorer,
       Event.dispatch Call.shutdown Role.trainer] ∧
    rayWaitElapsed env.loserFinishTime 5 ≤ 5 := by
  refine ⟨?_, rayWaitElapsed_le _ _⟩
  rw [both_allOk cfg env h1 h2 h3]
  simp [bothRace, h4]

/-- Witness for claim C3: a concrete run whose trainer token wins while
the explorer never finishes; the wait still lasts only the 5-unit
window. -/
theorem C3_trainer_wins_short_window_witness :
    both cfgD envTrainerWins = allOkHead ++
      [Event.waitLoser 5 (rayWaitElapsed none 5),
       Event.dispatch Call.shutdown Role.explorer,
       Event.dispatch Call.shutdown Role.trainer] ∧
    rayWaitElapsed none 5 ≤ 5 :=
  C3_trainer_wins_short_window cfgD envTrainerWins rfl rfl rfl rfl

/-- Claim C4 (confirmed): when the retrieved completion token is the
configured explorer name and the two configured names are distinct, the
losing run future is waited on with the configured sync timeout, the wait
lasts at most that window, and a Trainer result arriving within the
window ends the wait at its arrival time. -/
theorem C4_explorer_wins_config_window (cfg : Config) (env : BothEnv)
    (h1 : env.readyRes = Res.ok) (h2 : env.prepareRes = Res.ok)
    (h3 : env.syncRes = Res.ok) (h4 : env.runResult = some cfg.explorerName)
    (h5 : cfg.trainerName ≠ cfg.explorerName) :
    both cfg env = allOkHead ++
      [Event.waitLoser cfg.syncTimeout
        (rayWaitElapsed env.loserFinishTime cfg.syncTimeout),
       Event.dispatch Call.shutdown Role.explorer,
       Event.dispatch Call.shutdown Role.trainer] ∧
    rayWaitElapsed env.loserFinishTime cfg.syncTimeout ≤ cfg.syncTimeout ∧
    (∀ t, env.loserFinishTime = some t → t ≤ cfg.syncTimeout →
      rayWaitElapsed env.loserFinishTime cfg.syncTimeout = t) := by
  refine ⟨?_, rayWaitElapsed_le _ _, ?_⟩
  · rw [both_allOk cfg env h1 h2 h3]
    have h5x : ¬ cfg.explorerName = cfg.trainerName := fun h => h5 h.symm
    simp [bothRace, h4, h5x]
  · intro t ht hle
    simp [rayWaitElapsed, ht, Nat.min_eq_left hle]

/-- Witness for claim C4, the Scenario B instance: window 300, trainer
result arriving at 250, so the wait ends at 250. -/
theorem C4_explorer_wins_config_window_witness :
    (both cfgD envExplorerWins = allOkHead ++
      [Event.waitLoser 300 (rayWaitElapsed (some 250) 300),
       Event.dispatch Call.shutdown Role.explorer,
       Event.dispatch Call.shutdown Role.trainer] ∧
    rayWaitElapsed (some 250) 300 ≤ 300 ∧
    (∀ t, (some 250 : Option Nat) = some t → t ≤ 300 →
      rayWaitElapsed (some 250) 300 = t)) ∧
    rayWaitElapsed (some 250) 300 = 250 :=
  ⟨C4_explorer_wins_config_window cfgD envExplorerWins rfl rfl rfl rfl
    (by decide), by decide⟩

/-- Claim C9 (confirmed): when the retrieved completion token matches
neither configured name, no grace wait occurs and shutdown is dispatched
to both handles immediately after the race. -/
theorem C9_unknown_token_immediate_shutdown (cfg : Config) (env : BothEnv)
    (h1 : env.readyRes = Res.ok) (h2 : env.prepareRes = Res.ok)
    (h3 : env.syncRes = Res.ok) (tok : String)
    (h4 : env.runResult = some tok)
    (h5 : tok ≠ cfg.trainerName) (h6 : tok ≠ cfg.explorerName) :
    both cfg env = allOkHead ++
      [Event.dispatch Call.shutdown Role.explorer,
       Event.dispatch Call.shutdown Role.trainer] ∧
    (both cfg env).countP isGraceWait = 0 := by
  have he : both cfg env = allOkHead ++
      [Event.dispatch Call.shutdown Role.explorer,
       Event.dispatch Call.shutdown Role.trainer] := by
    rw [both_allOk cfg env h1 h2 h3]
    simp [bothRace, h4, h5, h6]
  exact ⟨he, by rw [he]; rfl⟩

/-- Witness for claim C9: a concrete run whose token matches neither
name. -/
theorem C9_unknown_token_immediate_shutdown_witness :
    both cfgD envUnknownTok = allOkHead ++
      [Event.dispatch Call.shutdown Role.explorer,
       Event.dispatch Call.shutdown Role.trainer] ∧
    (both cfgD envUnknownTok).countP isGraceWait = 0 :=
  C9_unknown_token_immediate_shutdown cfgD envUnknownTok rfl rfl rfl "other"
    rfl (by decide) (by decide)

/-- Claim C10 (confirmed): when both workers are configured with the same
name, any retrieved completion token equal to that name takes the trainer
branch, so the fixed 5-unit window is applied whichever worker actually
finished first, and the configured sync timeout window is not used. -/
theorem C10_equal_names_trainer_branch (cfg : Config) (env : BothEnv)
    (h1 : env.readyRes = Res.ok) (h2 : env.prepareRes = Res.ok)
    (h3 : env.syncRes = Res.ok)
    (heq : cfg.trainerName = cfg.explorerName)
    (tok : String) (h4 : env.runResult = some tok)
    (htok : tok = cfg.explorerName) :
    both cfg env = allOkHead ++
      [Event.waitLoser 5 (rayWaitElapsed env.loserFinishTime 5),
       Event.dispatch Call.shutdown Role.explorer,
       Event.dispatch Call.shutdown Role.trainer] ∧
    (cfg.syncTimeout ≠ 5 →
      Event.waitLoser cfg.syncTimeout
        (rayWaitElapsed env.loserFinishTime cfg.syncTimeout) ∉ both cfg env) := by
  have htok2 : tok = cfg.trainerName := by rw [htok, heq]
  have he : both cfg env = allOkHead ++
      [Event.waitLoser 5 (rayWaitElapsed env.loserFinishTime 5),
       Event.dispatch Call.shutdown Role.explorer,
       Event.dispatch Call.shutdown Role.trainer] := by
    rw [both_allOk cfg env h1 h2 h3]
    simp [bothRace, h4, htok2]
  refine ⟨he, ?_⟩
  intro hne
  rw [he]
  simp [allOkHead, hne]

/-- Witness for claim C10: both names are the shared name, the loser
would finish at 7 units, yet the 5-unit window is the one applied. -/
theorem C10_equal_names_trainer_branch_witness :
    both cfgShared envShared = allOkHead ++
      [Event.waitLoser 5 (rayWaitElapsed (some 7) 5),
       Event.dispatch Call.shutdown Role.explorer,
       Event.dispatch Call.shutdown Role.trainer] ∧
    Event.waitLoser 300 (rayWaitElapsed (some 7) 300) ∉ both cfgShared envShared :=
  ⟨(C10_equal_names_trainer_branch cfgShared envShared rfl rfl rfl rfl
      "worker" rfl rfl).1,
   (C10_equal_names_trainer_branch cfgShared envShared rfl rfl rfl rfl
      "worker" rfl rfl).2 (by decide)⟩

/-- Claim C5 (confirmed): strict phase order in both mode.  A prepare
dispatch implies the readiness barrier succeeded and follows its
completion; a sync weight dispatch implies the prepare barrier succeeded
on both handles and follows its completion; a run dispatch implies the
sync weight barrier succeeded on both handles and follows its
completion. -/
theorem C5_phase_ordering (cfg : Config) (env : BothEnv) :
    (∀ r, Event.dispatch Call.prepare r ∈ both cfg env →
      env.readyRes = Res.ok ∧
      occursBefore (Event.completed Call.ready)
        (Event.dispatch Call.prepare r) (both cfg env)) ∧
    (∀ r, Event.dispatch Call.syncWeight r ∈ both cfg env →
      env.prepareRes = Res.ok ∧
      occursBefore (Event.completed Call.prepare)
        (Event.dispatch Call.syncWeight r) (both cfg env)) ∧
    (∀ r, Event.dispatch Call.run r ∈ both cfg env →
      env.syncRes = Res.ok ∧
      occursBefore (Event.completed Call.ready)
        (Event.dispatch Call.run r) (both cfg env) ∧
      occursBefore (Event.completed Call.syncWeight)
        (Event.dispatch Call.run r) (both cfg env)) := by
  refine ⟨?_, ?_, ?_⟩
  · intro r hr
    cases h1 : env.readyRes with
    | err => simp [both, bothFromPrepare, h1] at hr
    | ok =>
      refine ⟨rfl, [Event.dispatch Call.ready Role.explorer,
        Event.dispatch Call.ready Role.trainer],
        Event.dispatch Call.prepare Role.explorer ::
        Event.dispatch Call.prepare Role.trainer :: bothFromSync cfg env,
        ?_, ?_⟩
      · simp [both, bothFromPrepare, h1]
      · cases r <;> simp
  · intro r hr
    cases h1 : env.readyRes with
    | err => simp [both, bothFromPrepare, h1] at hr
    | ok =>
      cases h2 : env.prepareRes with
      | err => simp [both, bothFromPrepare, bothFromSync, h1, h2] at hr
      | ok =>
        refine ⟨rfl, [Event.dispatch Call.ready Role.explorer,
          Event.dispatch Call.ready Role.trainer,
          Event.completed Call.ready,
          Event.dispatch Call.prepare Role.explorer,
          Event.dispatch Call.prepare Role.trainer],
          Event.dispatch Call.syncWeight Role.explorer ::
          Event.dispatch Call.syncWeight Role.trainer :: bothFromRun cfg env,
          ?_, ?_⟩
        · simp [both, bothFromPrepare, bothFromSync, h1, h2]
        · cases r <;> simp
  · intro r hr
    cases h1 : env.readyRes with
    | err => simp [both, bothFromPrepare, h1] at hr
    | ok =>
      cases h2 : env.prepareRes with
      | err => simp [both, bothFromPrepare, bothFromSync, h1, h2] at hr
      | ok =>
        cases h3 : env.syncRes with
        | err =>
          simp [both, bothFromPrepare, bothFromSync, bothFromRun, h1, h2, h3] at hr
        | ok =>
          refine ⟨rfl, ?_, ?_⟩
          · refine ⟨[Event.dispatch Call.ready Role.explorer,
              Event.dispatch Call.ready Role.trainer],
              Event.dispatch Call.prepare Role.explorer ::
              Event.dispatch Call.prepare Role.trainer :: bothFromSync cfg env,
              ?_, ?_⟩
            · simp [both, bothFromPrepare, h1]
            · simp [bothFromSync, bothFromRun, h2, h3]
              cases r <;> simp
          · refine ⟨[Event.dispatch Call.ready Role.explorer,
              Event.dispatch Call.ready Role.trainer,
              Event.completed Call.ready,
              Event.dispatch Call.prepare Role.explorer,
              Event.dispatch Call.prepare Role.trainer,
              Event.completed Call.prepare,
              Event.dispatch Call.syncWeight Role.explorer,
              Event.dispatch Call.syncWeight Role.trainer],
              Event.dispatch Call.run Role.explorer ::
              Event.dispatch Call.run Role.trainer :: bothRace cfg env,
              ?_, ?_⟩
            · simp [both, bothFromPrepare, bothFromSync, bothFromRun, h1, h2, h3]
            · cases r <;> simp

/-- Witness for claim C5 at a concrete all-success environment, for the
explorer handle. -/
theorem C5_phase_ordering_witness :
    (envTrainerWins.readyRes = Res.ok ∧
      occursBefore (Event.completed Call.ready)
        (Event.dispatch Call.prepare Role.explorer) (both cfgD envTrainerWins)) ∧
    (envTrainerWins.prepareRes = Res.ok ∧
      occursBefore (Event.completed Call.prepare)
        (Event.dispatch Call.syncWeight Role.explorer) (both cfgD envTrainerWins)) ∧
    (envTrainerWins.syncRes = Res.ok ∧
      occursBefore (Event.completed Call.ready)
        (Event.dispatch Call.run Role.explorer) (both cfgD envTrainerWins) ∧
      occursBefore (Event.completed Call.syncWeight)
        (Event.dispatch Call.run Role.explorer) (both cfgD envTrainerWins)) :=
  ⟨(C5_phase_ordering cfgD envTrainerWins).1 Role.explorer (by decide),
   (C5_phase_ordering cfgD envTrainerWins).2.1 Role.explorer (by decide),
   (C5_phase_ordering cfgD envTrainerWins).2.2 Role.explorer (by decide)⟩

/-- The task pipeline used in the claim C6 counterexample: a single raw
input buffer and a distinct output buffer, so the common checks pass. -/
def pExp : DataPipelineConfig := ⟨[⟨"a", true⟩], ⟨"b", true⟩⟩

/-- A pipeline with no input buffers, whose validation returns false for
every pipeline type. -/
def pEmpty : DataPipelineConfig := ⟨[], ⟨"b", true⟩⟩

/-- Data processor configuration with an experience pipeline whose common
checks pass. -/
def dpExp : DataProcessorConfig := ⟨"u", none, some pExp⟩

/-- Data processor configuration whose two pipelines both fail
validation with a returned false. -/
def dpEmpty : DataProcessorConfig := ⟨"u", some pEmpty, some pEmpty⟩

/-- Claim C6 as stated is false for the experience pipeline: when its
common checks pass, validation raises NotImplementedError instead of
returning false, and the exception escapes run, so the run fails. -/
theorem C6_counterexample :
    validate_data_pipeline pExp "experience" =
      Except.error "experience_pipeline is not implemented yet." ∧
    runPipelineActivations dpExp =
      Except.error "experience_pipeline is not implemented yet." := by
  constructor <;> rfl

theorem tryTaskActivation_skip (dp : DataProcessorConfig)
    (ht : ∀ p, dp.task_pipeline = some p →
      validate_data_pipeline p "task" = Except.ok false) :
    tryTaskActivation dp = Except.ok [] := by
  unfold tryTaskActivation
  split_ifs with hurl
  · rfl
  · cases hp : dp.task_pipeline with
    | none => rfl
    | some p =>
      dsimp only
      rw [ht p hp]

theorem tryExperienceActivation_skip (dp : DataProcessorConfig)
    (he : ∀ p, dp.experience_pipeline = some p →
      validate_data_pipeline p "experience" = Except.ok false) :
    tryExperienceActivation dp = Except.ok [] := by
  unfold tryExperienceActivation
  split_ifs with hurl
  · rfl
  · cases hp : dp.experience_pipeline with
    | none => rfl
    | some p =>
      dsimp only
      rw [he p hp]

/-- Claim C6 (corrected): when validation of a configured pipeline
returns false, its activation is skipped and the run does not fail; this
holds for the task pipeline, and for the experience pipeline only when a
common check already failed, because an experience pipeline passing the
common checks makes validation raise and the run fail. -/
theorem C6_validation_failure_amended (dp : DataProcessorConfig)
    (ht : ∀ p, dp.task_pipeline = some p →
      validate_data_pipeline p "task" = Except.ok false)
    (he : ∀ p, dp.experience_pipeline = some p →
      validate_data_pipeline p "experience" = Except.ok false) :
    runPipelineActivations dp = Except.ok [] := by
  unfold runPipelineActivations
  rw [tryTaskActivation_skip dp ht, tryExperienceActivation_skip dp he]
  rfl

/-- Witness for the amended claim C6: both pipelines configured with an
empty input buffer list; validation returns false twice, nothing is
activated and nothing is raised. -/
theorem C6_validation_failure_amended_witness :
    runPipelineActivations dpEmpty = Except.ok [] :=
  C6_validation_failure_amended dpEmpty
    (fun p hp => by injection hp with h; rw [← h]; rfl)
    (fun p hp => by injection hp with h; rw [← h]; rfl)

/-- Claim C7 (confirmed): for the task pipeline type, validation returns
true exactly when the input buffer list is non-empty, the output buffer
name is not among the input buffer names, and every input buffer is raw;
in every other task case it returns false, never an exception. -/
theorem C7_validate_task (p : DataPipelineConfig) :
    (validate_data_pipeline p "task" = Except.ok true ↔
      (p.input_buffers ≠ [] ∧
       p.output_buffer.name ∉ p.input_buffers.map (fun b => b.name) ∧
       ∀ b ∈ p.input_buffers, b.raw = true)) ∧
    (validate_data_pipeline p "task" = Except.ok true ∨
     validate_data_pipeline p "task" = Except.ok false) := by
  have hx : validate_data_pipeline p "task" =
      (if p.input_buffers.length = 0 then Except.ok false
       else if (p.input_buffers.map (fun b => b.name)).contains p.output_buffer.name
         then Except.ok false
       else if p.input_buffers.all (fun b => b.raw) then Except.ok true
       else Except.ok false) := by
    simp [validate_data_pipeline]
  rw [hx]
  constructor
  · constructor
    · intro h
      split_ifs at h with hlen hcont hall
      · exact absurd rfl (Except.ok.inj h ▸ Bool.false_ne_true)
      · exact absurd rfl (Except.ok.inj h ▸ Bool.false_ne_true)
      · refine ⟨fun hnil => ?_, fun hmem => ?_, List.all_eq_true.mp hall⟩
        · exact hlen (by rw [hnil]; rfl)
        · exact hcont (List.elem_iff.mpr hmem)
      · exact absurd rfl (Except.ok.inj h ▸ Bool.false_ne_true)
    · intro h
      obtain ⟨hnil, hmem, hraw⟩ := h
      rw [if_neg (fun hz => hnil (List.length_eq_zero.mp hz)),
        if_neg (fun hc => hmem (List.elem_iff.mp hc)),
        if_pos (List.all_eq_true.mpr hraw)]
  · split_ifs <;> simp

/-- Witness for claim C7: a valid one-buffer task pipeline validates to
true. -/
theorem C7_validate_task_witness :
    (validate_data_pipeline pExp "task" = Except.ok true ↔
      (pExp.input_buffers ≠ [] ∧
       pExp.output_buffer.name ∉ pExp.input_buffers.map (fun b => b.name) ∧
       ∀ b ∈ pExp.input_buffers, b.raw = true)) ∧
    (validate_data_pipeline pExp "task" = Except.ok true ∨
     validate_data_pipeline pExp "task" = Except.ok false) :=
  C7_validate_task pExp

theorem runTrace_no_escape (opts : RunOptions) (cfg : Config) (benv : BothEnv)
    (senv : SingleEnv)
    (h : opts.mode = "explore" ∨ opts.mode = "train" ∨ opts.mode = "bench") :
    RunEvent.escape ∉ runTrace opts cfg benv senv := by
  obtain ⟨m, d, e⟩ := opts
  obtain ⟨p, s, r, sd⟩ := senv
  simp only at h
  rcases h with h|h|h <;> subst h <;>
    cases d <;> cases e <;> cases p <;> cases s <;> cases r <;> cases sd <;>
      simp [runTrace, explore, train, bench]

/-- A single-mode environment where every retrieval succeeds. -/
def senvOk : SingleEnv := ⟨Res.ok, Res.ok, Res.ok, Res.ok⟩

/-- Run options selecting both mode with timeline export and managed
cluster teardown enabled. -/
def optsBoth : RunOptions := ⟨"both", true, true⟩

/-- Run options selecting explore mode with timeline export and managed
cluster teardown enabled. -/
def optsExplore : RunOptions := ⟨"explore", true, true⟩

/-- Claim C8 as stated is false for both mode: a prepare failure there is
not caught; the finally cleanup still runs, but the exception then
escapes the run entrypoint. -/
theorem C8_counterexample :
    RunEvent.escape ∈ runTrace optsBoth cfgD envPrepErr senvOk ∧
    RunEvent.timelineExport ∈ runTrace optsBoth cfgD envPrepErr senvOk ∧
    RunEvent.clusterTeardown ∈ runTrace optsBoth cfgD envPrepErr senvOk := by
  refine ⟨?_, ?_, ?_⟩ <;> decide

/-- Claim C8 (corrected): in explore, train and bench modes every
orchestration failure is caught and logged inside the mode, so nothing
escapes the run entrypoint; the finally cleanup (timeline export, managed
cluster teardown) runs in every mode whenever enabled, but in both mode
an orchestration failure is not caught and escapes run after the
cleanup. -/
theorem C8_cleanup_amended (opts : RunOptions) (cfg : Config)
    (benv : BothEnv) (senv : SingleEnv) :
    ((opts.mode = "explore" ∨ opts.mode = "train" ∨ opts.mode = "bench") →
      RunEvent.escape ∉ runTrace opts cfg benv senv) ∧
    (opts.enableTimeline = true →
      RunEvent.timelineExport ∈ runTrace opts cfg benv senv) ∧
    (opts.dlc = true →
      RunEvent.clusterTeardown ∈ runTrace opts cfg benv senv) := by
  refine ⟨runTrace_no_escape opts cfg benv senv, ?_, ?_⟩
  · intro h
    simp [runTrace, h]
  · intro h
    simp [runTrace, h]

/-- Witness for the amended claim C8 in explore mode with both cleanup
steps enabled. -/
theorem C8_cleanup_amended_witness :
    RunEvent.escape ∉ runTrace optsExplore cfgD envPrepErr senvOk ∧
    RunEvent.timelineExport ∈ runTrace optsExplore cfgD envPrepErr senvOk ∧
    RunEvent.clusterTeardown ∈ runTrace optsExplore cfgD envPrepErr senvOk :=
  ⟨(C8_cleanup_amended optsExplore cfgD envPrepErr senvOk).1 (Or.inl rfl),
   (C8_cleanup_amended optsExplore cfgD envPrepErr senvOk).2.1 rfl,
   (C8_cleanup_amended optsExplore cfgD envPrepErr senvOk).2.2 rfl⟩
